import Mathlib

/-!
Verification development for the vulnerability-validation pipeline
(meli-challenge).  The definitions below are shallow embeddings of the
Python source: `src/agents/dynamic_agent.py` (the Evidence Extractor and
Exploitation Executor), `src/agents/triage_agent.py` (the Triage Engine,
Evidence Aggregator, priority and risk-matrix logic) and
`src/utils/database.py` (the Assessment State Store).  Python dicts with a
known key schema are embedded as structures whose fields are `Option`s
(`none` models an absent key); dict `get` with a default becomes
`Option.getD`.  Python string operations are modelled on `List Char`.
-/

namespace MeliChallenge

/-- Model of the Python membership test `needle in hay` for strings,
as a search over character lists. -/
def infixAux (needle : List Char) : List Char → Bool
  | [] => needle.isEmpty
  | c :: cs => needle.isPrefixOf (c :: cs) || infixAux needle cs

/-- Python `needle in hay` for strings. -/
def strContains (hay needle : String) : Bool :=
  infixAux needle.toList hay.toList

/-- Python `str.upper` (the source only upper-cases ASCII method names). -/
def strUpper (s : String) : String := String.mk (s.toList.map Char.toUpper)

/-- Python `str.lower` (the source only lower-cases ASCII text). -/
def strLower (s : String) : String := String.mk (s.toList.map Char.toLower)

/-- Characters matched by the regex class `\s` (ASCII). -/
def isSpaceChar (c : Char) : Bool :=
  c = ' ' || c = '\t' || c = '\n' || c = '\r' || c = '\x0b' || c = '\x0c'

/-- Python `s.split(sep, 1)[1]`: everything after the first occurrence of
`c` (the callers guard on the presence of `c`). -/
def dropThroughChar (c : Char) : List Char → List Char
  | [] => []
  | x :: xs => if x = c then xs else dropThroughChar c xs

/-- Python `s.split(sep)[0]`: everything up to the first occurrence of `c`. -/
def takeUntilChar (c : Char) : List Char → List Char
  | [] => []
  | x :: xs => if x = c then [] else x :: takeUntilChar c xs

/-- Quote characters of the regex classes in `_test_specific_vulnerability`. -/
def isQuoteChar (c : Char) : Bool := c = '\'' || c = '"'

/-- Case-insensitive prefix match: the pattern is given lower-cased. -/
def ciPrefixMatch : List Char → List Char → Bool
  | [], _ => true
  | _ :: _, [] => false
  | p :: ps, t :: ts => p = Char.toLower t && ciPrefixMatch ps ts

/-- One attempt of the verb-and-path regex
`(GET|POST|PUT|DELETE)\s+([^\s]+)` at a fixed position: the verb
alternatives are tried in order, each followed by one or more whitespace
characters and a maximal nonempty run of non-whitespace characters. -/
def matchVerbAt (verb : String) (l : List Char) : Option (String × String) :=
  if verb.toList.isPrefixOf l then
    let rest := l.drop verb.length
    let spaces := rest.takeWhile isSpaceChar
    if spaces.isEmpty then none
    else
      let after := rest.dropWhile isSpaceChar
      let tok := after.takeWhile (fun c => !isSpaceChar c)
      if tok.isEmpty then none else some (verb, String.mk tok)
  else none

/-- All four verb alternatives of the request-line regex at one position. -/
def matchAnyVerbAt (l : List Char) : Option (String × String) :=
  match matchVerbAt "GET" l with
  | some r => some r
  | none => match matchVerbAt "POST" l with
    | some r => some r
    | none => match matchVerbAt "PUT" l with
      | some r => some r
      | none => matchVerbAt "DELETE" l

/-- Model of `re.search(r'(GET|POST|PUT|DELETE)\s+([^\s]+)', poc)`:
leftmost match wins. -/
def findVerbPath : List Char → Option (String × String)
  | [] => none
  | c :: cs =>
    match matchAnyVerbAt (c :: cs) with
    | some r => some r
    | none => findVerbPath cs

/-- Characters of the regex class `[\s=:]` used after the `payload` key. -/
def isDelimChar (c : Char) : Bool := isSpaceChar c || c = '=' || c = ':'

/-- Model of one alternative `key[\s=:]+['"]([^'"]+)['"]` of the
POST-payload regex at a fixed position (case-insensitive key): the key,
one or more delimiter characters, an opening quote, a nonempty run of
non-quote characters (the capture), and a closing quote. -/
def matchQuotedAfterKey (key : List Char) (l : List Char) : Option String :=
  if ciPrefixMatch key l then
    let rest := l.drop key.length
    let delims := rest.takeWhile isDelimChar
    if delims.isEmpty then none
    else
      match rest.dropWhile isDelimChar with
      | [] => none
      | q :: rest2 =>
        if isQuoteChar q then
          let grp := rest2.takeWhile (fun c => !isQuoteChar c)
          if grp.isEmpty then none
          else
            match rest2.dropWhile (fun c => !isQuoteChar c) with
            | [] => none
            | _ :: _ => some (String.mk grp)
        else none
  else none

/-- Model of an alternative `key([^X]+)` at a fixed position
(case-insensitive key, capture a maximal nonempty run of characters not
satisfying `stop`). -/
def matchRunAfterKey (key : List Char) (stop : Char → Bool) (l : List Char) :
    Option String :=
  if ciPrefixMatch key l then
    let rest := l.drop key.length
    let grp := rest.takeWhile (fun c => !stop c)
    if grp.isEmpty then none else some (String.mk grp)
  else none

/-- Characters of the regex class `[&\s]` stopping a form-value capture. -/
def isAmpOrSpace (c : Char) : Bool := c = '&' || isSpaceChar c

/-- Model of the POST-payload regex of `_test_specific_vulnerability`
(line 188): at each position, in order, the alternatives
`payload[\s=:]+['"]([^'"]+)['"]`, `with payload[\s=:]+['"]([^'"]+)['"]`,
`username=([^&\s]+)`, `password=([^&\s]+)`; the first match (leftmost
position, alternatives in declaration order) yields its capture group. -/
def postPayloadSearch : List Char → Option String
  | [] => none
  | c :: cs =>
    match matchQuotedAfterKey "payload".toList (c :: cs) with
    | some g => some g
    | none => match matchQuotedAfterKey "with payload".toList (c :: cs) with
      | some g => some g
      | none => match matchRunAfterKey "username=".toList isAmpOrSpace (c :: cs) with
        | some g => some g
        | none => match matchRunAfterKey "password=".toList isAmpOrSpace (c :: cs) with
          | some g => some g
          | none => postPayloadSearch cs

/-- The marker alternation `(?:or|script|\.\.|\/)` of the injection-payload
regexes, checked case-insensitively inside a captured run. -/
def containsMarkerCI (l : List Char) : Bool :=
  let low := l.map Char.toLower
  infixAux "or".toList low || infixAux "script".toList low ||
    infixAux "..".toList low || infixAux "/".toList low

/-- Model of `['"]([^'"]*(?:or|script|\.\.|\/)[^'"]*)['"]?`: the leftmost
quote character whose following maximal run of non-quote characters
contains a marker; the capture is that whole run (the greedy trailing
`[^'"]*` always extends the group to the next quote or the end). -/
def injectionPatternQuoted : List Char → Option String
  | [] => none
  | c :: cs =>
    if isQuoteChar c then
      let run := cs.takeWhile (fun x => !isQuoteChar x)
      if containsMarkerCI run then some (String.mk run)
      else injectionPatternQuoted cs
    else injectionPatternQuoted cs

/-- Model of `=([^&\s]*(?:or|script|\.\.|\/)[^&\s]*)`: the leftmost `=`
whose following maximal run free of `&` and whitespace contains a marker;
the capture is that whole run. -/
def injectionPatternAssign : List Char → Option String
  | [] => none
  | c :: cs =>
    if c = '=' then
      let run := cs.takeWhile (fun x => !isAmpOrSpace x)
      if containsMarkerCI run then some (String.mk run)
      else injectionPatternAssign cs
    else injectionPatternAssign cs

/-- Model of `url=([^&\s]+)` (case-insensitive): leftmost occurrence of
the key followed by a nonempty run free of `&` and whitespace. -/
def injectionPatternUrl : List Char → Option String
  | [] => none
  | c :: cs =>
    match matchRunAfterKey "url=".toList isAmpOrSpace (c :: cs) with
    | some g => some g
    | none => injectionPatternUrl cs

/-- The injection-payload pattern loop of `_test_specific_vulnerability`
(lines 194-203): the three patterns are tried in order and the first one
that matches anywhere supplies the payload. -/
def injectionSearch (l : List Char) : Option String :=
  match injectionPatternQuoted l with
  | some g => some g
  | none => match injectionPatternAssign l with
    | some g => some g
    | none => injectionPatternUrl l

/-- A VulnerabilityClaim as read by the agents: one report-derived dict.
Fields are the keys the embedded functions read; `none` models an absent
key (Python `dict.get` with a default becomes `Option.getD`). -/
structure Vuln where
  id : Option String := none
  title : Option String := none
  vtype : Option String := none
  severity : Option String := none
  affected_components : List String := []
  description : Option String := none
  proof_of_concept : Option String := none
  endpoint : Option String := none
  url : Option String := none
  method : Option String := none
  payload : Option String := none
  exploit : Option String := none
  parameter : Option String := none
  param : Option String := none
deriving DecidableEq, Repr

/-- The normalized exploitation request assembled by the extraction phase
of `_test_specific_vulnerability` (dynamic_agent.py lines 145-213). -/
structure ExtractedRequest where
  method : String
  endpoint : String
  payload : String
  parameter : String
deriving DecidableEq, Repr

/-- The proof-of-concept method scan of `_test_specific_vulnerability`
(lines 169-176), run whenever the method so far equals GET. -/
def pocMethodScan (poc : String) : String :=
  if strContains poc "POST" then "POST"
  else if strContains poc "PUT" then "PUT"
  else if strContains poc "DELETE" then "DELETE"
  else "GET"

/-- The Evidence Extractor: the extraction phase of
`_test_specific_vulnerability` (dynamic_agent.py lines 145-213), which
derives method, endpoint, payload and parameter for one claim.  Mirrors
the source statement by statement: explicit fields first, then the
affected-components and proof-of-concept fallbacks for the endpoint, the
method scan, and the three payload fallbacks. -/
def extractRequestDetails (v : Vuln) : ExtractedRequest :=
  let endpoint0 := v.endpoint.getD (v.url.getD "/")
  let method0 := strUpper (v.method.getD "GET")
  let payload0 := v.payload.getD (v.exploit.getD "")
  let parameter0 := v.parameter.getD (v.param.getD "")
  let poc := v.proof_of_concept.getD ""
  let ep1 :=
    if endpoint0 = "" || endpoint0 = "/" then
      match v.affected_components with
      | c :: _ => c
      | [] => endpoint0
    else endpoint0
  let (endpoint1, method1) :=
    if (endpoint0 = "" || endpoint0 = "/") && (poc ≠ "" && ep1 = "") then
      match findVerbPath poc.toList with
      | some (m, p) => (p, m)
      | none => (ep1, method0)
    else (ep1, method0)
  let method2 :=
    if method1 = "GET" then
      if strContains poc "POST" then "POST"
      else if strContains poc "PUT" then "PUT"
      else if strContains poc "DELETE" then "DELETE"
      else method1
    else method1
  let payload1 :=
    if payload0 = "" then
      if poc ≠ "" then
        if method2 = "GET" && strContains poc "?" then
          String.mk (takeUntilChar ' ' (dropThroughChar '?' poc.toList))
        else if method2 = "POST" && strContains (strLower poc) "payload" then
          match postPayloadSearch poc.toList with
          | some g => g
          | none => payload0
        else if strContains (strLower poc) "' or" || strContains (strLower poc) "<script"
            || strContains (strLower poc) "../" || strContains (strLower poc) "http://" then
          match injectionSearch poc.toList with
          | some g => g
          | none => payload0
        else payload0
      else payload0
    else payload0
  ⟨method2, endpoint1, payload1, parameter0⟩

/-- The single HTTP attempt constructed by `_execute_reported_test`
(dynamic_agent.py lines 253-294).  The Python function joins the target
URL and endpoint with `urljoin` (an external library call) and then
unconditionally invokes the HTTP session: there is no branch that skips
the request, so the attempt below is sent for every input.  `query` is
the string appended to the URL for GET requests (after a separator chosen
by the presence of an existing query string); `formData` is the form body
for POST and other verbs, with later duplicate keys overwriting earlier
ones as in a Python dict. -/
structure HttpAttempt where
  method : String
  endpoint : String
  query : Option String
  formData : List (String × String)
deriving DecidableEq, Repr

/-- Python dict assignment `data[k] = v` preserving insertion order. -/
def updateAssoc (l : List (String × String)) (k v : String) :
    List (String × String) :=
  match l with
  | [] => [(k, v)]
  | (k0, v0) :: rest =>
    if k0 = k then (k0, v) :: rest else (k0, v0) :: updateAssoc rest k v

/-- Python `s.split(c)` keeping empty fields. -/
def splitOnChar (c : Char) : List Char → List (List Char)
  | [] => [[]]
  | x :: xs =>
    let r := splitOnChar c xs
    if x = c then [] :: r
    else
      match r with
      | [] => [[x]]
      | h :: t => (x :: h) :: t

/-- The form-data parsing of `_execute_reported_test` (lines 281-285):
split the payload on `&` and assign `key = value` pairs into a dict. -/
def parseFormPairs (payload : String) : List (String × String) :=
  (splitOnChar '&' payload.toList).foldl
    (fun d pair =>
      if infixAux "=".toList pair then
        updateAssoc d (String.mk (takeUntilChar '=' pair))
          (String.mk (dropThroughChar '=' pair))
      else d)
    []

/-- The request constructed and sent by `_execute_reported_test` for one
extracted request (lines 266-294): every input leads to exactly one HTTP
attempt, including an all-default extraction (GET against endpoint "/"). -/
def executeReportedTestRequest (r : ExtractedRequest) : HttpAttempt :=
  if r.method = "GET" then
    if r.parameter ≠ "" && r.payload ≠ "" then
      ⟨r.method, r.endpoint, some (r.parameter ++ "=" ++ r.payload), []⟩
    else if r.payload ≠ "" then
      ⟨r.method, r.endpoint, some r.payload, []⟩
    else ⟨r.method, r.endpoint, none, []⟩
  else if r.method = "POST" then
    let d :=
      if r.parameter ≠ "" && r.payload ≠ "" then [(r.parameter, r.payload)]
      else if r.payload ≠ "" then
        if strContains r.payload "=" then parseFormPairs r.payload
        else [("data", r.payload)]
      else []
    ⟨r.method, r.endpoint, none, d⟩
  else
    ⟨r.method, r.endpoint, none,
      if r.parameter ≠ "" && r.payload ≠ "" then [(r.parameter, r.payload)] else []⟩

/-- One vulnerability assessment produced by the static stage (the JSON
schema of static_agent.py lines 162-171, plus the `file_locations` and
`code_snippets` keys read by database.py): list-valued keys default to
the empty list as Python `get(key, [])` does. -/
structure StaticAssess where
  vulnerability_id : Option String := none
  static_status : Option String := none
  evidence : Option String := none
  semgrep_matches : List String := []
  code_locations : List String := []
  file_locations : List String := []
  code_snippets : List String := []
deriving DecidableEq, Repr

/-- An additional finding reported by the static stage (carried through
unread by the functions modelled here). -/
structure AdditionalFinding where
  ftype : Option String := none
  description : Option String := none
  severity : Option String := none
  location : Option String := none
deriving DecidableEq, Repr

/-- The `vulnerability_analysis` sub-dict of the static stage output. -/
structure VulnAnalysis where
  vulnerability_assessments : List StaticAssess := []
  additional_findings : List AdditionalFinding := []
deriving DecidableEq, Repr

/-- A static-analysis dict as it flows through the triage agent: either
the static agent's output (with the `vulnerability_analysis` wrapper) or
the flattened shape produced by `_extract_static_results` (top-level
`vulnerability_assessments`).  `none` fields model absent keys; the
`semgrep_results` payload is carried through unread and modelled as raw
finding summaries. -/
structure StaticAnalysisDoc where
  vulnerability_analysis : Option VulnAnalysis := none
  vulnerability_assessments : Option (List StaticAssess) := none
  additional_findings : Option (List AdditionalFinding) := none
  semgrep_results : Option (List String) := none
deriving DecidableEq, Repr

/-- The request_details dict stored on a test attempt
(dynamic_agent.py lines 206-213). -/
structure ReqDetails where
  name : Option String := none
  method : Option String := none
  endpoint : Option String := none
  payload : Option String := none
  parameter : Option String := none
  description : Option String := none
deriving DecidableEq, Repr

/-- One attempt record of a dynamic test, with the keys read by
`_extract_technical_evidence` (triage_agent.py lines 479-511). -/
structure AttemptRecord where
  request_details : Option ReqDetails := none
  response_code : Option Nat := none
  response_size : Option Nat := none
  evidence : Option String := none
deriving DecidableEq, Repr

/-- One entry of `vulnerability_tests` as produced by the dynamic stage
(dynamic_agent.py lines 135-143) with the extra keys database.py reads. -/
structure DynTest where
  vulnerability_id : Option String := none
  dynamic_status : Option String := none
  test_attempts : List AttemptRecord := []
  exploitation_proof : Option String := none
  http_evidence : List (String × String) := []
deriving DecidableEq, Repr

/-- A dynamic-analysis dict as it flows through the triage agent; the
`general_tests` and `reconnaissance` payloads are carried through unread. -/
structure DynamicAnalysisDoc where
  vulnerability_tests : Option (List DynTest) := none
  general_tests : Option (List String) := none
  reconnaissance : Option (List String) := none
deriving DecidableEq, Repr

/-- Model of `_extract_static_results` (triage_agent.py lines 126-170) on
dict input (`none` models a falsy argument; the string-parsing recovery
branches apply only to text input, which the pipeline does not pass).
The output carries top-level `vulnerability_assessments`,
`additional_findings` and `semgrep_results` keys and, crucially, no
`vulnerability_analysis` key. -/
def extractStaticResults (static_analysis : Option StaticAnalysisDoc) :
    StaticAnalysisDoc :=
  match static_analysis with
  | none =>
    { vulnerability_assessments := some [], additional_findings := some [] }
  | some d =>
    let va := d.vulnerability_analysis.getD {}
    { vulnerability_assessments := some va.vulnerability_assessments
      additional_findings := some va.additional_findings
      semgrep_results := some (d.semgrep_results.getD []) }

/-- Model of `_extract_dynamic_results` (triage_agent.py lines 172-205)
on dict input. -/
def extractDynamicResults (dynamic_analysis : Option DynamicAnalysisDoc) :
    DynamicAnalysisDoc :=
  match dynamic_analysis with
  | none => { vulnerability_tests := some [], general_tests := some [] }
  | some d =>
    { vulnerability_tests := some (d.vulnerability_tests.getD [])
      general_tests := some (d.general_tests.getD [])
      reconnaissance := some (d.reconnaissance.getD []) }

/-- The technical_evidence record (triage_agent.py lines 446-453),
initialized to the explicit "not found" sentinels. -/
structure TechnicalEvidence where
  vulnerable_code_snippet : String
  file_location : String
  http_request_example : String
  http_response_example : String
  exploitation_payload : String
  proof_of_concept : String
deriving DecidableEq, Repr

/-- The initial all-sentinel technical_evidence record. -/
def initialTechnicalEvidence : TechnicalEvidence :=
  ⟨"No code evidence found", "No location identified",
   "No HTTP request captured", "No HTTP response captured",
   "No payload identified", "No proof of concept available"⟩

/-- The request-details block of the per-attempt loop of
`_extract_technical_evidence` (triage_agent.py lines 481-498): HTTP
request line and exploitation payload. -/
def applyAttemptRequest (te : TechnicalEvidence) (a : AttemptRecord) :
    TechnicalEvidence :=
  match a.request_details with
  | none => te
  | some rd =>
    let method := rd.method.getD "GET"
    let endpoint := rd.endpoint.getD "/"
    let payload := rd.payload.getD ""
    let parameter := rd.parameter.getD ""
    let te' :=
      if method ≠ "" && endpoint ≠ "" then
        if method = "GET" && payload ≠ "" then
          let param_str :=
            if parameter ≠ "" then "?" ++ parameter ++ "=" ++ payload
            else "?" ++ payload
          { te with http_request_example :=
              method ++ " " ++ endpoint ++ param_str ++ " HTTP/1.1" }
        else if method = "POST" && payload ≠ "" then
          { te with http_request_example :=
              if parameter ≠ "" then
                method ++ " " ++ endpoint ++
                  " HTTP/1.1\nContent-Type: application/x-www-form-urlencoded\n\n" ++
                  parameter ++ "=" ++ payload
              else
                method ++ " " ++ endpoint ++
                  " HTTP/1.1\nContent-Type: application/x-www-form-urlencoded\n\n" ++
                  payload }
        else te
      else te
    if payload ≠ "" then { te' with exploitation_payload := payload } else te'

/-- The response block of the per-attempt loop (triage_agent.py lines
500-504): HTTP response summary. -/
def applyAttemptResponse (te : TechnicalEvidence) (a : AttemptRecord) :
    TechnicalEvidence :=
  match a.response_code with
  | some code =>
    if code ≠ 0 then
      { te with http_response_example :=
          "HTTP/1.1 " ++ toString code ++ "\nContent-Length: " ++
            (match a.response_size with
             | some n => toString n
             | none => "unknown") }
    else te
  | none => te

/-- The evidence block of the per-attempt loop (triage_agent.py lines
506-511): seed or extend the proof of concept. -/
def applyAttemptEvidence (te : TechnicalEvidence) (a : AttemptRecord) :
    TechnicalEvidence :=
  match a.evidence with
  | some e =>
    if e ≠ "" then
      if te.proof_of_concept = "No proof of concept available" then
        { te with proof_of_concept := "Dynamic Analysis PoC: " ++ e }
      else
        { te with proof_of_concept :=
            te.proof_of_concept ++ "; Dynamic Analysis PoC: " ++ e }
    else te
  | none => te

/-- The per-attempt mutation of `_extract_technical_evidence`
(triage_agent.py lines 480-511): the three blocks in source order. -/
def applyAttempt (te : TechnicalEvidence) (a : AttemptRecord) :
    TechnicalEvidence :=
  applyAttemptEvidence (applyAttemptResponse (applyAttemptRequest te a) a) a

/-- Model of `_extract_technical_evidence` (triage_agent.py lines
444-514).  The static overlay runs only when the argument carries a
`vulnerability_analysis` key; the dynamic overlay only when it carries a
`vulnerability_tests` key.  In each source the first entry matching
`vuln_id` is used (the loops break). -/
def extractTechnicalEvidence (vuln_id : String)
    (static_analysis : Option StaticAnalysisDoc)
    (dynamic_analysis : Option DynamicAnalysisDoc) : TechnicalEvidence :=
  let te1 :=
    match static_analysis with
    | none => initialTechnicalEvidence
    | some sd =>
      match sd.vulnerability_analysis with
      | none => initialTechnicalEvidence
      | some va =>
        match va.vulnerability_assessments.find?
            (fun a => a.vulnerability_id = some vuln_id) with
        | none => initialTechnicalEvidence
        | some a =>
          let t1 :=
            if a.code_locations ≠ [] then
              { initialTechnicalEvidence with
                file_location := String.intercalate "; " a.code_locations }
            else initialTechnicalEvidence
          let t2 :=
            if a.semgrep_matches ≠ [] then
              { t1 with vulnerable_code_snippet :=
                  String.intercalate "; " a.semgrep_matches }
            else t1
          match a.evidence with
          | some e =>
            if e ≠ "" then
              { t2 with proof_of_concept := "Static Analysis PoC: " ++ e }
            else t2
          | none => t2
  match dynamic_analysis with
  | none => te1
  | some dd =>
    match dd.vulnerability_tests with
    | none => te1
    | some tests =>
      match tests.find? (fun t => t.vulnerability_id = some vuln_id) with
      | none => te1
      | some t => t.test_attempts.foldl applyAttempt te1

/-- The evidence_summary sub-record of a fallback triage verdict. -/
structure EvidenceSummary where
  pdf_evidence : String
  static_evidence : String
  dynamic_evidence : String
deriving DecidableEq, Repr

/-- One TriageVerdict as built by `_create_fallback_triage`
(triage_agent.py lines 399-418). -/
structure TriageVerdict where
  vulnerability_id : String
  title : String
  vtype : String
  original_severity : String
  final_status : String
  confidence_level : String
  priority : String
  evidence_summary : EvidenceSummary
  technical_evidence : TechnicalEvidence
  correlation_analysis : String
  exploitability_assessment : String
  risk_rating : String
  remediation_priority : String
  false_positive_likelihood : String
deriving DecidableEq, Repr

/-- Model of `_calculate_priority` (triage_agent.py lines 531-543). -/
def calculatePriority (original_severity final_status : String) : String :=
  if final_status ≠ "Vulnerable" then "Low"
  else
    match original_severity with
    | "Critical" => "Critical"
    | "High" => "High"
    | "Medium" => "Medium"
    | "Low" => "Low"
    | _ => "Medium"

/-- The per-claim body of `_create_fallback_triage` (triage_agent.py
lines 368-418): look up the first matching dynamic test and static
assessment by id, decide final status and confidence by comparing both
statuses against the literal "Vulnerable", and assemble the verdict. -/
def createFallbackTriageOne (static_results : StaticAnalysisDoc)
    (dynamic_results : DynamicAnalysisDoc) (vuln : Vuln) : TriageVerdict :=
  let vuln_id := vuln.id.getD "unknown"
  let dynMatch := (dynamic_results.vulnerability_tests.getD []).find?
    (fun t => t.vulnerability_id = some vuln_id)
  let dynamic_status :=
    match dynMatch with
    | some t => t.dynamic_status.getD "Not Vulnerable"
    | none => "Not Vulnerable"
  let dynamic_evidence :=
    match dynMatch with
    | some _ => "Dynamic testing: " ++ dynamic_status
    | none => "No dynamic testing performed"
  let staticMatch := (static_results.vulnerability_assessments.getD []).find?
    (fun a => a.vulnerability_id = some vuln_id)
  let static_status :=
    match staticMatch with
    | some a => a.static_status.getD "Not Vulnerable"
    | none => "Not Vulnerable"
  let static_evidence :=
    match staticMatch with
    | some _ => "Static analysis: " ++ static_status
    | none => "No static analysis performed"
  let final_status :=
    if dynamic_status = "Vulnerable" || static_status = "Vulnerable" then
      "Vulnerable"
    else "Not Vulnerable"
  let confidence :=
    if dynamic_status = "Vulnerable" || static_status = "Vulnerable" then
      if dynamic_status = "Vulnerable" then "High" else "Medium"
    else "Low"
  { vulnerability_id := vuln_id
    title := vuln.title.getD "Unknown"
    vtype := vuln.vtype.getD "Unknown"
    original_severity := vuln.severity.getD "Unknown"
    final_status := final_status
    confidence_level := confidence
    priority := calculatePriority (vuln.severity.getD "Medium") final_status
    evidence_summary :=
      ⟨"Reported in PDF: " ++ vuln.title.getD "Unknown", static_evidence,
        dynamic_evidence⟩
    technical_evidence :=
      extractTechnicalEvidence vuln_id (some static_results) (some dynamic_results)
    correlation_analysis := "Automated correlation (fallback mode)"
    exploitability_assessment := "Limited assessment available"
    risk_rating := "Medium"
    remediation_priority := "Medium"
    false_positive_likelihood := "Unknown" }

/-- The triage_summary counts built by `_create_fallback_triage`
(triage_agent.py lines 421-431). -/
structure TriageSummary where
  total_vulnerabilities_analyzed : Nat
  confirmed_vulnerable : Nat
  possible_vulnerable : Nat
  not_vulnerable : Nat
  high_priority_count : Nat
deriving DecidableEq, Repr

/-- The result of `_create_fallback_triage` (triage_agent.py lines
361-442): one verdict per PDF claim plus summary counts. -/
structure FallbackTriageResult where
  triage_summary : TriageSummary
  vulnerability_triage : List TriageVerdict
  fallback_mode : Bool
deriving DecidableEq, Repr

/-- Model of `_create_fallback_triage`, the rule-based fallback path of
the Triage Engine. -/
def createFallbackTriage (pdf_vulns : List Vuln)
    (static_results : StaticAnalysisDoc)
    (dynamic_results : DynamicAnalysisDoc) : FallbackTriageResult :=
  let vt := pdf_vulns.map (createFallbackTriageOne static_results dynamic_results)
  let vulnerable_count := vt.countP (fun v => v.final_status = "Vulnerable")
  { triage_summary :=
      ⟨vt.length, vulnerable_count, 0, vt.length - vulnerable_count,
        vt.countP (fun v => v.priority = "Critical" || v.priority = "High")⟩
    vulnerability_triage := vt
    fallback_mode := true }

/-- One entry of a `vulnerability_triage` list as read by
`_generate_risk_matrix` (only the two keys it consults; produced in
general by the reasoning collaborator, so either may be absent). -/
structure RiskEntry where
  original_severity : Option String := none
  final_status : Option String := none
deriving DecidableEq, Repr

/-- The 4 x 2 risk matrix of `_generate_risk_matrix`
(triage_agent.py lines 615-631). -/
structure RiskMatrix where
  critical_vulnerable : Nat
  critical_not_vulnerable : Nat
  high_vulnerable : Nat
  high_not_vulnerable : Nat
  medium_vulnerable : Nat
  medium_not_vulnerable : Nat
  low_vulnerable : Nat
  low_not_vulnerable : Nat
deriving DecidableEq, Repr

/-- The per-vulnerability increment of `_generate_risk_matrix`: a cell is
incremented only when the severity string is a key of the matrix and the
status string is a key of that row. -/
def riskMatrixStep (m : RiskMatrix) (e : RiskEntry) : RiskMatrix :=
  let severity := e.original_severity.getD "Medium"
  let status := e.final_status.getD "Not Vulnerable"
  if severity = "Critical" then
    if status = "Vulnerable" then
      { m with critical_vulnerable := m.critical_vulnerable + 1 }
    else if status = "Not Vulnerable" then
      { m with critical_not_vulnerable := m.critical_not_vulnerable + 1 }
    else m
  else if severity = "High" then
    if status = "Vulnerable" then
      { m with high_vulnerable := m.high_vulnerable + 1 }
    else if status = "Not Vulnerable" then
      { m with high_not_vulnerable := m.high_not_vulnerable + 1 }
    else m
  else if severity = "Medium" then
    if status = "Vulnerable" then
      { m with medium_vulnerable := m.medium_vulnerable + 1 }
    else if status = "Not Vulnerable" then
      { m with medium_not_vulnerable := m.medium_not_vulnerable + 1 }
    else m
  else if severity = "Low" then
    if status = "Vulnerable" then
      { m with low_vulnerable := m.low_vulnerable + 1 }
    else if status = "Not Vulnerable" then
      { m with low_not_vulnerable := m.low_not_vulnerable + 1 }
    else m
  else m

/-- Model of `_generate_risk_matrix` (triage_agent.py lines 615-631). -/
def generateRiskMatrix (vulnerabilities : List RiskEntry) : RiskMatrix :=
  vulnerabilities.foldl riskMatrixStep ⟨0, 0, 0, 0, 0, 0, 0, 0⟩

/-- Sum of all eight cells of a risk matrix. -/
def sumRiskCells (m : RiskMatrix) : Nat :=
  m.critical_vulnerable + m.critical_not_vulnerable + m.high_vulnerable +
    m.high_not_vulnerable + m.medium_vulnerable + m.medium_not_vulnerable +
    m.low_vulnerable + m.low_not_vulnerable

/-- Whether a risk entry lands in some cell of the matrix: its defaulted
severity is one of the four row keys and its defaulted status one of the
two column keys. -/
def riskCounted (e : RiskEntry) : Bool :=
  (e.original_severity.getD "Medium" = "Critical" ||
    e.original_severity.getD "Medium" = "High" ||
    e.original_severity.getD "Medium" = "Medium" ||
    e.original_severity.getD "Medium" = "Low") &&
  (e.final_status.getD "Not Vulnerable" = "Vulnerable" ||
    e.final_status.getD "Not Vulnerable" = "Not Vulnerable")

/-- The static_evidence record written by
`_enhance_vulnerabilities_with_evidence` (database.py lines 335-343); the
wall-clock timestamp it also stores is external I/O and not modelled. -/
structure StaticEvidence where
  status : Option String
  evidence : Option String
  file_locations : List String
  code_snippets : List String
deriving DecidableEq, Repr

/-- The dynamic_evidence record written by
`_enhance_vulnerabilities_with_evidence` (database.py lines 355-363);
timestamp omitted as above. -/
structure DynamicEvidence where
  status : Option String
  test_attempts : List AttemptRecord
  exploitation_proof : Option String
  http_evidence : List (String × String)
deriving DecidableEq, Repr

/-- One entry of the document's `vulnerabilities` list: the report claim
plus the evidence and triage keys that the state store adds.  `claim`
holds every report-derived key, which the enhancement functions read only
through `id` and never modify. -/
structure DbVuln where
  claim : Vuln := {}
  static_evidence : Option StaticEvidence := none
  dynamic_evidence : Option DynamicEvidence := none
  final_status : Option String := none
  confidence_level : Option String := none
  priority : Option String := none
  risk_rating : Option String := none
  exploitability_assessment : Option String := none
  remediation_priority : Option String := none
deriving DecidableEq, Repr

/-- One entry of a triage list as read by
`_apply_triage_to_vulnerabilities` (database.py lines 388-398). -/
structure TriageItem where
  vulnerability_id : Option String := none
  final_status : Option String := none
  confidence_level : Option String := none
  priority : Option String := none
  risk_rating : Option String := none
  exploitability_assessment : Option String := none
  remediation_priority : Option String := none
deriving DecidableEq, Repr

/-- A stage result dict as consumed by `update_assessment_stage` and its
helpers: the keys read are `vulnerabilities` (pdf stage),
`vulnerability_analysis` (static stage), `vulnerability_tests` (dynamic
stage) and `vulnerability_triage` (triage stage). -/
structure StageResult where
  vulnerabilities : List DbVuln := []
  vulnerability_analysis : Option VulnAnalysis := none
  vulnerability_tests : List DynTest := []
  vulnerability_triage : Option (List TriageItem) := none
deriving DecidableEq, Repr

/-- The stage payload passed to `update_assessment_stage`: a top-level
`vulnerabilities` key, a `result` sub-dict (`none` models absent or
falsy) and a `raw_output` string, modelled as `some r` when it parses to
a JSON dict `r` and `none` otherwise. -/
structure StageData where
  vulnerabilities : List DbVuln := []
  result : Option StageResult := none
  raw_output : Option StageResult := none
deriving DecidableEq, Repr

/-- The assessment document fields touched by `update_assessment_stage`
(database.py lines 137-162 give the initial values). -/
structure AssessmentDoc where
  status : String := "in_progress"
  current_stage : String := "initializing"
  completion_percentage : ℚ := 0
  stages_completed : List String := []
  vulnerabilities : List DbVuln := []
  final_result : Option StageResult := none
deriving DecidableEq, Repr

/-- The initial document of `create_assessment_document`. -/
def initialAssessmentDoc : AssessmentDoc := {}

/-- The vulnerability-list search of the pdf branch of
`update_assessment_stage` (database.py lines 229-245): top-level key,
then the `result` sub-dict, then the parsed `raw_output`. -/
def pdfStageVulnerabilities (data : StageData) : List DbVuln :=
  let v1 := data.vulnerabilities
  let v2 :=
    if v1 = [] then
      match data.result with
      | some r => r.vulnerabilities
      | none => []
    else v1
  if v2 = [] then
    match data.raw_output with
    | some r => r.vulnerabilities
    | none => []
  else v2

/-- The stage-result resolution of
`_enhance_vulnerabilities_with_evidence` (database.py lines 313-324):
the `result` sub-dict when truthy, else the parsed `raw_output`, else an
empty dict. -/
def resolveStageResult (data : StageData) : StageResult :=
  match data.result with
  | some r => r
  | none =>
    match data.raw_output with
    | some r => r
    | none => {}

/-- The static branch of `_enhance_vulnerabilities_with_evidence`
(database.py lines 326-344): for each existing vulnerability, the first
assessment whose `vulnerability_id` equals the vulnerability's `id`
supplies a `static_evidence` record; everything else is untouched. -/
def enhanceStatic (assessments : List StaticAssess) (vulns : List DbVuln) :
    List DbVuln :=
  vulns.map (fun v =>
    match assessments.find? (fun a => a.vulnerability_id = v.claim.id) with
    | some a =>
      { v with static_evidence := some (StaticEvidence.mk
          a.static_status a.evidence a.file_locations a.code_snippets) }
    | none => v)

/-- The dynamic branch of `_enhance_vulnerabilities_with_evidence`
(database.py lines 346-364). -/
def enhanceDynamic (tests : List DynTest) (vulns : List DbVuln) :
    List DbVuln :=
  vulns.map (fun v =>
    match tests.find? (fun t => t.vulnerability_id = v.claim.id) with
    | some t =>
      { v with dynamic_evidence := some (DynamicEvidence.mk
          t.dynamic_status t.test_attempts t.exploitation_proof
          t.http_evidence) }
    | none => v)

/-- Model of `_enhance_vulnerabilities_with_evidence`
(database.py lines 297-369). -/
def enhanceVulnerabilitiesWithEvidence (current_vulns : List DbVuln)
    (stage_data : StageData) (stage : String) : List DbVuln :=
  let stage_result := resolveStageResult stage_data
  if stage = "static_analysis" then
    enhanceStatic
      (stage_result.vulnerability_analysis.getD {}).vulnerability_assessments
      current_vulns
  else if stage = "dynamic_analysis" then
    enhanceDynamic stage_result.vulnerability_tests current_vulns
  else current_vulns

/-- Model of `_apply_triage_to_vulnerabilities`
(database.py lines 371-404). -/
def applyTriageToVulnerabilities (current_vulns : List DbVuln)
    (triage_results : List TriageItem) : List DbVuln :=
  current_vulns.map (fun v =>
    match triage_results.find? (fun t => t.vulnerability_id = v.claim.id) with
    | some t =>
      { v with
        final_status := t.final_status
        confidence_level := t.confidence_level
        priority := t.priority
        risk_rating := t.risk_rating
        exploitability_assessment := t.exploitability_assessment
        remediation_priority := t.remediation_priority }
    | none => v)

/-- The final-result resolution of the triage branch of
`update_assessment_stage` (database.py lines 258-269). -/
def triageFinalResult (data : StageData) : Option StageResult :=
  match data.result with
  | some r => some r
  | none => data.raw_output

/-- The four tracked stage names (database.py line 212). -/
def stageOrder : List String :=
  ["pdf_analysis", "static_analysis", "dynamic_analysis", "triage_analysis"]

/-- Model of `update_assessment_stage` (database.py lines 175-295) as a
pure document transformer: progress tracking (set-like stage list,
completion percentage over the four tracked stages, next stage, status),
then the stage-specific vulnerability and final-result updates. -/
def updateAssessmentStage (doc : AssessmentDoc) (stage : String)
    (data : StageData) : AssessmentDoc :=
  let stages_completed :=
    if stage ∈ doc.stages_completed then doc.stages_completed
    else doc.stages_completed ++ [stage]
  let completion_percentage : ℚ := ((stages_completed.length : ℚ) / 4) * 100
  let current_index : Int :=
    if stage ∈ stageOrder then (stageOrder.indexOf stage : Int) else -1
  let next_stage :=
    if current_index < 3 then stageOrder.getD (current_index + 1).toNat "completed"
    else "completed"
  let vulnerabilities :=
    if stage = "pdf_analysis" then
      let vs := pdfStageVulnerabilities data
      if vs ≠ [] then vs else doc.vulnerabilities
    else if stage = "static_analysis" || stage = "dynamic_analysis" then
      if doc.vulnerabilities ≠ [] then
        enhanceVulnerabilitiesWithEvidence doc.vulnerabilities data stage
      else doc.vulnerabilities
    else if stage = "triage_analysis" then
      match triageFinalResult data with
      | some fr =>
        match fr.vulnerability_triage with
        | some tl =>
          if doc.vulnerabilities ≠ [] then
            applyTriageToVulnerabilities doc.vulnerabilities tl
          else doc.vulnerabilities
        | none => doc.vulnerabilities
      | none => doc.vulnerabilities
    else doc.vulnerabilities
  let final_result :=
    if stage = "triage_analysis" then
      match triageFinalResult data with
      | some fr => some fr
      | none => doc.final_result
    else doc.final_result
  { status := if completion_percentage = 100 then "completed" else "in_progress"
    current_stage := next_stage
    completion_percentage := completion_percentage
    stages_completed := stages_completed
    vulnerabilities := vulnerabilities
    final_result := final_result }

/-- Sequential application of stage updates to a document. -/
def applyStages (doc : AssessmentDoc) : List (String × StageData) → AssessmentDoc
  | [] => doc
  | (s, d) :: rest => applyStages (updateAssessmentStage doc s d) rest

/-- The dynamic status looked up by the fallback triage loop
(triage_agent.py lines 375-379): the first test with a matching id, with
the Python defaults. -/
def fallbackDynamicStatus (dynamic_results : DynamicAnalysisDoc)
    (vuln_id : String) : String :=
  match (dynamic_results.vulnerability_tests.getD []).find?
      (fun t => t.vulnerability_id = some vuln_id) with
  | some t => t.dynamic_status.getD "Not Vulnerable"
  | none => "Not Vulnerable"

/-- The static status looked up by the fallback triage loop
(triage_agent.py lines 385-389). -/
def fallbackStaticStatus (static_results : StaticAnalysisDoc)
    (vuln_id : String) : String :=
  match (static_results.vulnerability_assessments.getD []).find?
      (fun a => a.vulnerability_id = some vuln_id) with
  | some a => a.static_status.getD "Not Vulnerable"
  | none => "Not Vulnerable"

/-- What the static enhancement is allowed to change about one entry:
everything but `static_evidence` is preserved, and an entry with no
matching assessment is untouched. -/
def staticEnhanceSpec (sas : List StaticAssess) (w v : DbVuln) : Prop :=
  w.claim = v.claim ∧ w.dynamic_evidence = v.dynamic_evidence ∧
  w.final_status = v.final_status ∧ w.confidence_level = v.confidence_level ∧
  w.priority = v.priority ∧ w.risk_rating = v.risk_rating ∧
  w.exploitability_assessment = v.exploitability_assessment ∧
  w.remediation_priority = v.remediation_priority ∧
  (sas.find? (fun a => a.vulnerability_id = v.claim.id) = none → w = v)

/-- What the dynamic enhancement is allowed to change about one entry:
everything but `dynamic_evidence` is preserved, and an entry with no
matching test is untouched. -/
def dynamicEnhanceSpec (tests : List DynTest) (w v : DbVuln) : Prop :=
  w.claim = v.claim ∧ w.static_evidence = v.static_evidence ∧
  w.final_status = v.final_status ∧ w.confidence_level = v.confidence_level ∧
  w.priority = v.priority ∧ w.risk_rating = v.risk_rating ∧
  w.exploitability_assessment = v.exploitability_assessment ∧
  w.remediation_priority = v.remediation_priority ∧
  (tests.find? (fun t => t.vulnerability_id = v.claim.id) = none → w = v)

/-- The two-claim scenario of the spec: claims "1" and "2", where only
claim "1" has a dynamic verdict, and it says "Confirmed Vulnerable". -/
def c1PdfVulns : List Vuln :=
  [{ id := some "1", title := some "SSRF", severity := some "High" },
   { id := some "2", title := some "XSS", severity := some "Medium" }]

/-- A dynamic test for claim "1" with status "Confirmed Vulnerable". -/
def confirmedTestFor1 : DynTest :=
  { vulnerability_id := some "1", dynamic_status := some "Confirmed Vulnerable" }

/-- The extracted dynamic results for the scenario: one test, claim "1",
status "Confirmed Vulnerable". -/
def c1DynamicResults : DynamicAnalysisDoc :=
  extractDynamicResults (some { vulnerability_tests := some [confirmedTestFor1] })

/-- Extracted static results with no static analysis available. -/
def c1StaticResults : StaticAnalysisDoc := extractStaticResults none

/-- A full static assessment for claim "1" carrying evidence text,
semgrep matches and code locations. -/
def c2Assessment : StaticAssess :=
  { vulnerability_id := some "1", static_status := some "Vulnerable",
    evidence := some "SQL injection confirmed in login handler",
    semgrep_matches := ["finding-1", "finding-2"],
    code_locations := ["app.py:10-20"] }

/-- A static-stage output carrying a full assessment for claim "1",
in the shape the static agent produces (with the
`vulnerability_analysis` wrapper). -/
def c2StaticAgentOutput : StaticAnalysisDoc :=
  { vulnerability_analysis := some { vulnerability_assessments := [c2Assessment] } }

/-- A claim with no explicit request fields, empty affected components
and a GET request line in its proof of concept. -/
def c3Claim : Vuln :=
  { proof_of_concept := some "GET /api/fetch?url=http://internal/secret HTTP/1.1" }

/-- A claim with an explicitly set method "GET" whose proof of concept
mentions POST. -/
def c5ExplicitGetClaim : Vuln :=
  { method := some "GET", proof_of_concept := some "POST /login HTTP/1.1" }

/-- A claim with no method field whose proof of concept contains the
literal substring POST. -/
def c5UnsetMethodClaim : Vuln :=
  { proof_of_concept := some "Send a POST request to /login" }

/-- A claim with an explicit non-GET method and an explicitly empty
endpoint, whose proof of concept carries a GET request line: the
request-line tier fires and replaces the explicit method. -/
def c5VerbTierClaim : Vuln :=
  { endpoint := some "", method := some "POST",
    proof_of_concept := some "GET /x HTTP/1.1" }

/-- Statement of the amended method-precedence rule as a standalone
derivation, to be compared with the extractor: start from the
upper-cased explicit method field (default "GET"); when the endpoint
resolution reaches the proof of concept (the explicit endpoint/url field
is empty or "/", the proof of concept is non-empty, and the
affected-components step still leaves an empty endpoint) and the
request-line regex matches, the captured verb replaces the method, an
explicit non-GET one included; finally, whenever the method at that
point equals "GET", the proof-of-concept scan for "POST", "PUT",
"DELETE" (in that priority order) applies, defaulting to "GET". -/
def methodPrecedenceSpec (v : Vuln) : String :=
  let base := strUpper (v.method.getD "GET")
  let poc := v.proof_of_concept.getD ""
  let endpoint0 := v.endpoint.getD (v.url.getD "/")
  let componentEndpoint :=
    match v.affected_components with
    | c :: _ => c
    | [] => endpoint0
  let afterVerbTier :=
    if (endpoint0 = "" || endpoint0 = "/") && (poc ≠ "" && componentEndpoint = "") then
      match findVerbPath poc.toList with
      | some (m, _) => m
      | none => base
    else base
  if afterVerbTier = "GET" then pocMethodScan poc else afterVerbTier

/-- Three stage applications over two distinct tracked stage names, with
one repetition. -/
def c6StageApplications : List (String × StageData) :=
  [("pdf_analysis", {}), ("static_analysis", {}), ("pdf_analysis", {})]

/-- A document that has already completed two stages. -/
def c6RepeatDoc : AssessmentDoc :=
  { stages_completed := ["pdf_analysis", "static_analysis"] }

/-- Concrete inputs for the enhancement witness: a document with no
vulnerabilities, and verdict lists alongside a two-claim list. -/
def c7EmptyDoc : AssessmentDoc := {}

/-- One static assessment matching claim "1". -/
def c7Assessments : List StaticAssess :=
  [{ vulnerability_id := some "1", static_status := some "Vulnerable" }]

/-- One dynamic test matching claim "1". -/
def c7Tests : List DynTest :=
  [{ vulnerability_id := some "1",
     dynamic_status := some "Confirmed Vulnerable" }]

/-- Two stored claims with ids "1" and "2". -/
def c7Vulns : List DbVuln :=
  [{ claim := { id := some "1" } }, { claim := { id := some "2" } }]

/-- A single claim with id "1". -/
def c9Claim : Vuln := { id := some "1" }

/-- A static assessment for claim "1" with status "Vulnerable". -/
def vulnerableAssessFor1 : StaticAssess :=
  { vulnerability_id := some "1", static_status := some "Vulnerable" }

/-- The wrapped static-agent output holding that assessment. -/
def c9StaticAgentOutput : StaticAnalysisDoc :=
  { vulnerability_analysis := some { vulnerability_assessments := [vulnerableAssessFor1] } }

/-- Extracted static results holding a "Vulnerable" verdict for claim "1". -/
def c9StaticVulnerable : StaticAnalysisDoc :=
  extractStaticResults (some c9StaticAgentOutput)

/-- Extracted dynamic results holding a "Confirmed Vulnerable" verdict
for claim "1". -/
def c9DynamicConfirmed : DynamicAnalysisDoc :=
  extractDynamicResults (some { vulnerability_tests := some [confirmedTestFor1] })

/-- Extracted static results with no verdicts. -/
def c9AbsentStatic : StaticAnalysisDoc := extractStaticResults none

/-- Extracted dynamic results with no verdicts. -/
def c9AbsentDynamic : DynamicAnalysisDoc := extractDynamicResults none

/-- A triaged vulnerability whose severity string is lower-cased and so
matches no row of the risk matrix. -/
def c10LowercaseEntry : RiskEntry :=
  { original_severity := some "critical", final_status := some "Vulnerable" }

/-- The fallback verdict's final status is decided by comparing the two
looked-up statuses against the literal "Vulnerable". -/
theorem createFallbackTriageOne_final_status_eq (sr : StaticAnalysisDoc)
    (dr : DynamicAnalysisDoc) (v : Vuln) :
    (createFallbackTriageOne sr dr v).final_status =
      (if fallbackDynamicStatus dr (v.id.getD "unknown") = "Vulnerable" ||
          fallbackStaticStatus sr (v.id.getD "unknown") = "Vulnerable" then "Vulnerable"
       else "Not Vulnerable") := rfl

/-- The fallback verdict's priority is the priority calculation applied
to the reported severity (defaulted to "Medium") and the final status. -/
theorem createFallbackTriageOne_priority_eq (sr : StaticAnalysisDoc)
    (dr : DynamicAnalysisDoc) (v : Vuln) :
    (createFallbackTriageOne sr dr v).priority =
      calculatePriority (v.severity.getD "Medium")
        (createFallbackTriageOne sr dr v).final_status := rfl

/-- The request block of the attempt loop never writes `file_location`
or `vulnerable_code_snippet`. -/
theorem applyAttemptRequest_static_fields (te : TechnicalEvidence) (a : AttemptRecord) :
    (applyAttemptRequest te a).file_location = te.file_location ∧
    (applyAttemptRequest te a).vulnerable_code_snippet = te.vulnerable_code_snippet := by
  rcases a with ⟨rd, rc, rs, ev⟩
  cases rd with
  | none => exact ⟨rfl, rfl⟩
  | some r =>
    constructor <;>
    · unfold applyAttemptRequest
      dsimp only
      split_ifs <;> rfl

/-- The response block of the attempt loop never writes `file_location`
or `vulnerable_code_snippet`. -/
theorem applyAttemptResponse_static_fields (te : TechnicalEvidence) (a : AttemptRecord) :
    (applyAttemptResponse te a).file_location = te.file_location ∧
    (applyAttemptResponse te a).vulnerable_code_snippet = te.vulnerable_code_snippet := by
  rcases a with ⟨rd, rc, rs, ev⟩
  cases rc with
  | none => exact ⟨rfl, rfl⟩
  | some c =>
    constructor <;>
    · unfold applyAttemptResponse
      dsimp only
      split_ifs <;> rfl

/-- The evidence block of the attempt loop never writes `file_location`
or `vulnerable_code_snippet`. -/
theorem applyAttemptEvidence_static_fields (te : TechnicalEvidence) (a : AttemptRecord) :
    (applyAttemptEvidence te a).file_location = te.file_location ∧
    (applyAttemptEvidence te a).vulnerable_code_snippet = te.vulnerable_code_snippet := by
  rcases a with ⟨rd, rc, rs, ev⟩
  cases ev with
  | none => exact ⟨rfl, rfl⟩
  | some e =>
    constructor <;>
    · unfold applyAttemptEvidence
      dsimp only
      split_ifs <;> rfl

/-- One attempt never writes `file_location` or `vulnerable_code_snippet`. -/
theorem applyAttempt_static_fields (te : TechnicalEvidence) (a : AttemptRecord) :
    (applyAttempt te a).file_location = te.file_location ∧
    (applyAttempt te a).vulnerable_code_snippet = te.vulnerable_code_snippet := by
  unfold applyAttempt
  have h1 := applyAttemptRequest_static_fields te a
  have h2 := applyAttemptResponse_static_fields (applyAttemptRequest te a) a
  have h3 := applyAttemptEvidence_static_fields
    (applyAttemptResponse (applyAttemptRequest te a) a) a
  exact ⟨h3.1.trans (h2.1.trans h1.1), h3.2.trans (h2.2.trans h1.2)⟩

/-- The whole attempt loop never writes `file_location` or
`vulnerable_code_snippet`. -/
theorem foldl_applyAttempt_static_fields (l : List AttemptRecord)
    (te : TechnicalEvidence) :
    (l.foldl applyAttempt te).file_location = te.file_location ∧
    (l.foldl applyAttempt te).vulnerable_code_snippet = te.vulnerable_code_snippet := by
  induction l generalizing te with
  | nil => exact ⟨rfl, rfl⟩
  | cons a t ih =>
    have h1 := applyAttempt_static_fields te a
    have h2 := ih (applyAttempt te a)
    exact ⟨h2.1.trans h1.1, h2.2.trans h1.2⟩

/-- The flattened output of `_extract_static_results` never carries the
`vulnerability_analysis` key that `_extract_technical_evidence` requires. -/
theorem extractStaticResults_no_wrapper (s : Option StaticAnalysisDoc) :
    (extractStaticResults s).vulnerability_analysis = none := by
  cases s <;> rfl

/-- The stage list written by `update_assessment_stage`: unchanged when
the stage is already recorded, appended otherwise. -/
theorem updateAssessmentStage_stages (doc : AssessmentDoc) (s : String) (d : StageData) :
    (updateAssessmentStage doc s d).stages_completed =
      (if s ∈ doc.stages_completed then doc.stages_completed
       else doc.stages_completed ++ [s]) := rfl

/-- The completion percentage written by `update_assessment_stage` is
always recomputed from the new stage list. -/
theorem updateAssessmentStage_completion (doc : AssessmentDoc) (s : String) (d : StageData) :
    (updateAssessmentStage doc s d).completion_percentage =
      (((updateAssessmentStage doc s d).stages_completed.length : ℚ) / 4) * 100 := rfl

/-- Invariant of repeated stage updates: the stage list stays
duplicate-free, the completion percentage stays consistent with its
length, and its elements are the initial ones plus the applied stage
names. -/
theorem applyStages_invariant (apps : List (String × StageData)) :
    ∀ doc : AssessmentDoc, doc.stages_completed.Nodup →
      doc.completion_percentage = ((doc.stages_completed.length : ℚ) / 4) * 100 →
      ((applyStages doc apps).stages_completed.Nodup ∧
        (applyStages doc apps).completion_percentage =
          (((applyStages doc apps).stages_completed.length : ℚ) / 4) * 100 ∧
        (applyStages doc apps).stages_completed.toFinset =
          doc.stages_completed.toFinset ∪ (apps.map Prod.fst).toFinset) := by
  induction apps with
  | nil =>
    intro doc h1 h2
    exact ⟨h1, h2, by simp [applyStages]⟩
  | cons p rest ih =>
    intro doc h1 h2
    obtain ⟨s, d⟩ := p
    have hstep : (updateAssessmentStage doc s d).stages_completed =
        (if s ∈ doc.stages_completed then doc.stages_completed
         else doc.stages_completed ++ [s]) := updateAssessmentStage_stages doc s d
    have hnodup : (updateAssessmentStage doc s d).stages_completed.Nodup := by
      rw [hstep]; split_ifs with h
      · exact h1
      · simp [List.nodup_append, h1, h]
    have hfs : (updateAssessmentStage doc s d).stages_completed.toFinset =
        insert s doc.stages_completed.toFinset := by
      rw [hstep]; split_ifs with h
      · exact (Finset.insert_eq_self.mpr (List.mem_toFinset.mpr h)).symm
      · ext a; simp [or_comm]
    have hrest := ih (updateAssessmentStage doc s d) hnodup
      (updateAssessmentStage_completion doc s d)
    refine ⟨hrest.1, hrest.2.1, ?_⟩
    have h3 := hrest.2.2
    rw [hfs] at h3
    rw [show applyStages doc ((s, d) :: rest) =
      applyStages (updateAssessmentStage doc s d) rest from rfl]
    rw [h3]
    ext a
    simp [or_assoc]

/-- One risk-matrix increment adds one to the total exactly when the
entry matches a row and a column. -/
theorem riskMatrixStep_sum (m : RiskMatrix) (e : RiskEntry) :
    sumRiskCells (riskMatrixStep m e) =
      sumRiskCells m + (if riskCounted e then 1 else 0) := by
  unfold riskMatrixStep riskCounted sumRiskCells
  dsimp only
  split_ifs <;> simp_all <;> omega

/-- Summing the risk matrix over a list counts the matching entries. -/
theorem foldl_riskMatrixStep_sum (l : List RiskEntry) (m : RiskMatrix) :
    sumRiskCells (l.foldl riskMatrixStep m) =
      sumRiskCells m + l.countP riskCounted := by
  induction l generalizing m with
  | nil => simp
  | cons e t ih =>
    rw [List.foldl_cons, ih, riskMatrixStep_sum, List.countP_cons]
    by_cases h : riskCounted e
    · simp only [h, if_true]; omega
    · simp only [h, if_false]; omega

set_option maxRecDepth 40000

/-- C1: in the rule-based fallback path, a claim whose dynamic verdict is
"Confirmed Vulnerable" does NOT get final status "Vulnerable" with
confidence "High": the code compares the dynamic status against the
literal "Vulnerable", which the dynamic stage never produces, so on the
two-claim scenario both claims come out "Not Vulnerable" with confidence
"Low" and priority "Low" — even though the dynamic status looked up for
claim "1" is indeed "Confirmed Vulnerable".  The claim without
confirmation (claim "2") does get "Not Vulnerable"/"Low" as stated. -/
theorem c1_fallback_drops_confirmed_dynamic :
    ((createFallbackTriage c1PdfVulns c1StaticResults c1DynamicResults).vulnerability_triage.map
      (fun v => (v.vulnerability_id, v.final_status, v.confidence_level, v.priority))) =
      [("1", "Not Vulnerable", "Low", "Low"), ("2", "Not Vulnerable", "Low", "Low")] ∧
    fallbackDynamicStatus c1DynamicResults "1" = "Confirmed Vulnerable" := by
  decide

/-- C2: the static overlay of `_extract_technical_evidence` is
unreachable through the triage pipeline: both call sites pass the output
of `_extract_static_results`, which never carries the
`vulnerability_analysis` wrapper the overlay requires, so
`file_location` and `vulnerable_code_snippet` keep their sentinels for
every static input and every claim id (the dynamic overlay never writes
those fields).  Concretely, a full assessment for claim "1" routed
through the pipeline produces the all-sentinel record, while handing the
same unflattened static output to `_extract_technical_evidence` directly
would produce the joined and prefixed values the spec describes. -/
theorem c2_pipeline_static_evidence_stays_sentinel :
    (∀ (static_analysis : Option StaticAnalysisDoc)
      (dynamic_analysis : Option DynamicAnalysisDoc) (vuln_id : String),
      (extractTechnicalEvidence vuln_id (some (extractStaticResults static_analysis))
        dynamic_analysis).file_location = "No location identified" ∧
      (extractTechnicalEvidence vuln_id (some (extractStaticResults static_analysis))
        dynamic_analysis).vulnerable_code_snippet = "No code evidence found")
    ∧ extractTechnicalEvidence "1" (some (extractStaticResults (some c2StaticAgentOutput)))
        (some (extractDynamicResults none)) = initialTechnicalEvidence
    ∧ extractTechnicalEvidence "1" (some c2StaticAgentOutput) none =
        { vulnerable_code_snippet := "finding-1; finding-2",
          file_location := "app.py:10-20",
          http_request_example := "No HTTP request captured",
          http_response_example := "No HTTP response captured",
          exploitation_payload := "No payload identified",
          proof_of_concept := "Static Analysis PoC: SQL injection confirmed in login handler" } := by
  refine ⟨?_, by decide, by decide⟩
  have key : ∀ (sd : StaticAnalysisDoc), sd.vulnerability_analysis = none →
      ∀ (dd : Option DynamicAnalysisDoc) (vuln_id : String),
      (extractTechnicalEvidence vuln_id (some sd) dd).file_location = "No location identified" ∧
      (extractTechnicalEvidence vuln_id (some sd) dd).vulnerable_code_snippet =
        "No code evidence found" := by
    intro sd hsd dd vuln_id
    unfold extractTechnicalEvidence
    dsimp only
    rw [hsd]
    dsimp only
    cases dd with
    | none => exact ⟨rfl, rfl⟩
    | some ddv =>
      dsimp only
      cases htests : ddv.vulnerability_tests with
      | none => exact ⟨rfl, rfl⟩
      | some tests =>
        dsimp only
        cases hfind : tests.find? (fun t => t.vulnerability_id = some vuln_id) with
        | none => exact ⟨rfl, rfl⟩
        | some t =>
          simpa using foldl_applyAttempt_static_fields t.test_attempts initialTechnicalEvidence
  intro s d vuln_id
  exact key _ (extractStaticResults_no_wrapper s) d vuln_id

/-- C3: for a claim with no explicit endpoint or url field, empty
affected components and a proof of concept containing the request line
"GET /api/fetch?url=... HTTP/1.1", the extractor does return the query
string as payload and method "GET", but the endpoint stays "/": the
request-line extraction is guarded by a check that the endpoint is empty,
which can never hold after the endpoint defaulted to "/". -/
theorem c3_poc_endpoint_not_extracted :
    extractRequestDetails c3Claim =
      { method := "GET", endpoint := "/",
        payload := "url=http://internal/secret", parameter := "" } := by
  decide

/-- C4 counterexample: for the entirely unextractable claim (every
request field absent, no affected components, no proof of concept) the
extractor yields endpoint "/" and method "GET" — not all-empty strings —
and `_execute_reported_test` builds and sends a GET attempt against
endpoint "/": there is no untestable guard, refuting the claim that no
HTTP request is attempted. -/
theorem c4_counterexample_request_sent_against_root :
    extractRequestDetails {} =
      { method := "GET", endpoint := "/", payload := "", parameter := "" } ∧
    executeReportedTestRequest (extractRequestDetails {}) =
      { method := "GET", endpoint := "/", query := none, formData := [] } := by
  decide

/-- C4 amended: the per-claim extraction never raises (it is a total
function of the claim record), but an entirely unextractable claim is
not treated as untestable: extraction yields method "GET", endpoint "/"
and empty payload and parameter, and the executor sends a GET attempt
against endpoint "/". -/
theorem c4_amended_unextractable_claim_requests_root :
    ∀ (v : Vuln), v.endpoint = none → v.url = none → v.method = none →
      v.payload = none → v.exploit = none → v.parameter = none → v.param = none →
      v.affected_components = [] →
      (v.proof_of_concept = none ∨ v.proof_of_concept = some "") →
      extractRequestDetails v =
        { method := "GET", endpoint := "/", payload := "", parameter := "" } ∧
      executeReportedTestRequest (extractRequestDetails v) =
        { method := "GET", endpoint := "/", query := none, formData := [] } := by
  intro v he hu hm hp hx hpar hpar2 hc hpoc
  rcases v with ⟨id, title, vtype, sev, comps, desc, poc, ep, url, m, pl, ex, par, par2⟩
  dsimp only at he hu hm hp hx hpar hpar2 hc hpoc
  subst he; subst hu; subst hm; subst hp; subst hx; subst hpar; subst hpar2; subst hc
  rcases hpoc with h | h <;> subst h <;> exact ⟨rfl, rfl⟩

/-- C4 witness: the amended theorem applied to the empty claim. -/
theorem c4_amended_witness :
    extractRequestDetails {} =
      { method := "GET", endpoint := "/", payload := "", parameter := "" } ∧
    executeReportedTestRequest (extractRequestDetails {}) =
      { method := "GET", endpoint := "/", query := none, formData := [] } :=
  c4_amended_unextractable_claim_requests_root {} rfl rfl rfl rfl rfl rfl rfl rfl
    (Or.inl rfl)

/-- C5 counterexample: a claim with the method field explicitly set to
"GET" whose proof of concept contains "POST" comes out with method
"POST": the explicit "GET" does not shield against the
proof-of-concept scan, refuting the claim that an explicit method is
used as given. -/
theorem c5_counterexample_explicit_get_overridden :
    c5ExplicitGetClaim.method = some "GET" ∧
    (extractRequestDetails c5ExplicitGetClaim).method = "POST" := by
  decide

set_option maxHeartbeats 3200000

/-- C5 amended: for every claim, the extracted method equals the
three-tier derivation of `methodPrecedenceSpec`: the upper-cased
explicit method field (default "GET"); replaced by the verb captured
from a proof-of-concept request line when the endpoint resolution
reaches the proof of concept — so even an explicit non-GET method can be
overwritten there; and, whenever the method at that point equals "GET"
(explicit, defaulted, or captured), overridden by the proof-of-concept
scan for "POST", "PUT", "DELETE" in that priority order, defaulting to
"GET".  In particular the method-unset claim whose proof of concept
contains "POST" yields "POST", while the request-line tier turns an
explicit "POST" with a "GET /x" request line into "GET". -/
theorem c5_amended_method_precedence :
    (∀ (v : Vuln), (extractRequestDetails v).method = methodPrecedenceSpec v) ∧
    (extractRequestDetails c5UnsetMethodClaim).method = "POST" ∧
    (extractRequestDetails c5VerbTierClaim).method = "GET" := by
  refine ⟨?_, by decide, by decide⟩
  intro v
  rcases v with ⟨id, title, vtype, sev, comps, desc, poc, ep, url, m, pl, ex, par, par2⟩
  unfold extractRequestDetails methodPrecedenceSpec pocMethodScan
  cases comps with
  | nil =>
    dsimp only
    split_ifs <;> first
      | rfl
      | (cases hf : findVerbPath ((poc.getD "").toList) with
          | none => simp_all
          | some r =>
            obtain ⟨vm, vp⟩ := r
            simp_all)
  | cons c cs =>
    dsimp only
    split_ifs <;> first
      | rfl
      | (cases hf : findVerbPath ((poc.getD "").toList) with
          | none => simp_all
          | some r =>
            obtain ⟨vm, vp⟩ := r
            simp_all)

/-- C6: starting from the initial document, applying any sequence of
stage updates drawn from the four tracked stage names yields a
completion percentage of exactly 100 times the number of distinct
applied stage names divided by four; and re-applying a stage name
already recorded neither extends the stage list nor changes the
recomputed completion percentage. -/
theorem c6_completion_percentage :
    (∀ (apps : List (String × StageData)),
      (∀ p ∈ apps, p.1 ∈ stageOrder) →
      (applyStages initialAssessmentDoc apps).completion_percentage =
        100 * (((apps.map Prod.fst).toFinset.card : ℚ)) / 4)
    ∧ (∀ (doc : AssessmentDoc) (s : String) (d : StageData),
      s ∈ doc.stages_completed →
      (updateAssessmentStage doc s d).stages_completed = doc.stages_completed ∧
      (updateAssessmentStage doc s d).completion_percentage =
        ((doc.stages_completed.length : ℚ) / 4) * 100) := by
  constructor
  · intro apps _
    have hinit1 : initialAssessmentDoc.stages_completed.Nodup := List.nodup_nil
    have hinit2 : initialAssessmentDoc.completion_percentage =
        ((initialAssessmentDoc.stages_completed.length : ℚ) / 4) * 100 := by
      norm_num [initialAssessmentDoc]
    obtain ⟨hn, hcomp, hfs⟩ := applyStages_invariant apps initialAssessmentDoc hinit1 hinit2
    have hcard : (applyStages initialAssessmentDoc apps).stages_completed.toFinset.card =
        (applyStages initialAssessmentDoc apps).stages_completed.length :=
      List.toFinset_card_of_nodup hn
    have hfs2 : (applyStages initialAssessmentDoc apps).stages_completed.toFinset =
        (apps.map Prod.fst).toFinset := by
      rw [hfs]; simp [initialAssessmentDoc]
    rw [hcomp, ← hcard, hfs2]
    ring
  · intro doc s d h
    have h1 : (updateAssessmentStage doc s d).stages_completed = doc.stages_completed := by
      rw [updateAssessmentStage_stages]; exact if_pos h
    refine ⟨h1, ?_⟩
    rw [updateAssessmentStage_completion, h1]

/-- C6 witness: the theorem applied to three stage applications over two
distinct tracked names (50 percent after the repetition), and to a
re-applied stage on a document that already completed it. -/
theorem c6_completion_percentage_witness :
    (∀ p ∈ c6StageApplications, p.1 ∈ stageOrder) ∧
    (applyStages initialAssessmentDoc c6StageApplications).completion_percentage =
      100 * (((c6StageApplications.map Prod.fst).toFinset.card : ℚ)) / 4 ∧
    "pdf_analysis" ∈ c6RepeatDoc.stages_completed ∧
    (updateAssessmentStage c6RepeatDoc "pdf_analysis" {}).stages_completed =
      c6RepeatDoc.stages_completed ∧
    (updateAssessmentStage c6RepeatDoc "pdf_analysis" {}).completion_percentage =
      ((c6RepeatDoc.stages_completed.length : ℚ) / 4) * 100 :=
  ⟨by decide, c6_completion_percentage.1 c6StageApplications (by decide), by decide,
    (c6_completion_percentage.2 c6RepeatDoc "pdf_analysis" {} (by decide)).1,
    (c6_completion_percentage.2 c6RepeatDoc "pdf_analysis" {} (by decide)).2⟩

/-- C7: a static or dynamic stage update on a document with an empty
vulnerability list leaves it empty (the payload is dropped); on a
non-empty list, each enhancement rewrites at most the `static_evidence`
respectively `dynamic_evidence` field of the entries whose id matches a
payload entry, preserving the number and order of entries, every
report-derived claim field, and every other stored field, and leaves
entries with no matching payload id completely unchanged. -/
theorem c7_evidence_enhancement_preserves_claims :
    (∀ (doc : AssessmentDoc) (stage : String) (d : StageData),
      (stage = "static_analysis" ∨ stage = "dynamic_analysis") →
      doc.vulnerabilities = [] →
      (updateAssessmentStage doc stage d).vulnerabilities = [])
    ∧ (∀ (sas : List StaticAssess) (vulns : List DbVuln),
      List.Forall₂ (staticEnhanceSpec sas) (enhanceStatic sas vulns) vulns)
    ∧ (∀ (tests : List DynTest) (vulns : List DbVuln),
      List.Forall₂ (dynamicEnhanceSpec tests) (enhanceDynamic tests vulns) vulns) := by
  refine ⟨?_, ?_, ?_⟩
  · intro doc stage d hst hv
    unfold updateAssessmentStage
    dsimp only
    rcases hst with rfl | rfl <;>
    · rw [if_neg (by decide), if_pos (by decide), if_neg (by simp [hv])]
      exact hv
  · intro sas vulns
    induction vulns with
    | nil => exact List.Forall₂.nil
    | cons v t ih =>
      refine List.Forall₂.cons ?_ ih
      unfold staticEnhanceSpec
      dsimp only
      cases hf : sas.find? (fun a => a.vulnerability_id = v.claim.id) with
      | none => exact ⟨rfl, rfl, rfl, rfl, rfl, rfl, rfl, rfl, fun _ => rfl⟩
      | some a =>
        exact ⟨rfl, rfl, rfl, rfl, rfl, rfl, rfl, rfl, fun hn => by cases hn⟩
  · intro tests vulns
    induction vulns with
    | nil => exact List.Forall₂.nil
    | cons v t ih =>
      refine List.Forall₂.cons ?_ ih
      unfold dynamicEnhanceSpec
      dsimp only
      cases hf : tests.find? (fun t2 => t2.vulnerability_id = v.claim.id) with
      | none => exact ⟨rfl, rfl, rfl, rfl, rfl, rfl, rfl, rfl, fun _ => rfl⟩
      | some a =>
        exact ⟨rfl, rfl, rfl, rfl, rfl, rfl, rfl, rfl, fun hn => by cases hn⟩

/-- C7 witness: the theorem applied to an empty document under a static
stage, and to concrete two-claim lists with one matching assessment and
one matching test. -/
theorem c7_enhancement_witness :
    (updateAssessmentStage c7EmptyDoc "static_analysis" {}).vulnerabilities = [] ∧
    List.Forall₂ (staticEnhanceSpec c7Assessments)
      (enhanceStatic c7Assessments c7Vulns) c7Vulns ∧
    List.Forall₂ (dynamicEnhanceSpec c7Tests)
      (enhanceDynamic c7Tests c7Vulns) c7Vulns :=
  ⟨c7_evidence_enhancement_preserves_claims.1 c7EmptyDoc "static_analysis" {}
      (Or.inl rfl) rfl,
    c7_evidence_enhancement_preserves_claims.2.1 c7Assessments c7Vulns,
    c7_evidence_enhancement_preserves_claims.2.2 c7Tests c7Vulns⟩

/-- C8: the priority calculation returns "Low" whenever the final status
is not "Vulnerable", regardless of severity; for a "Vulnerable" status
it returns the severity verbatim when it is one of Critical, High,
Medium, Low, and "Medium" otherwise. -/
theorem c8_priority_derivation (sev status : String) :
    (status ≠ "Vulnerable" → calculatePriority sev status = "Low") ∧
    (status = "Vulnerable" →
      ((sev = "Critical" ∨ sev = "High" ∨ sev = "Medium" ∨ sev = "Low") →
        calculatePriority sev status = sev) ∧
      ((sev ≠ "Critical" ∧ sev ≠ "High" ∧ sev ≠ "Medium" ∧ sev ≠ "Low") →
        calculatePriority sev status = "Medium")) := by
  constructor
  · intro h; simp [calculatePriority, h]
  · intro h; subst h
    constructor
    · rintro (rfl | rfl | rfl | rfl) <;> rfl
    · rintro ⟨h1, h2, h3, h4⟩
      unfold calculatePriority
      rw [if_neg (by simp)]
      split
      all_goals simp_all

/-- C8 witness: the theorem applied to a not-vulnerable Critical claim,
a vulnerable High claim and a vulnerable claim with an unrecognized
severity string. -/
theorem c8_priority_witness :
    calculatePriority "Critical" "Not Vulnerable" = "Low" ∧
    calculatePriority "High" "Vulnerable" = "High" ∧
    calculatePriority "Unknown" "Vulnerable" = "Medium" :=
  ⟨(c8_priority_derivation "Critical" "Not Vulnerable").1 (by decide),
    ((c8_priority_derivation "High" "Vulnerable").2 rfl).1 (Or.inr (Or.inl rfl)),
    ((c8_priority_derivation "Unknown" "Vulnerable").2 rfl).2 (by decide)⟩

/-- C9: over the nine combinations of the three dynamic statuses and
three static statuses, a fallback verdict reaches final status
"Vulnerable" only if the dynamic status is "Confirmed Vulnerable" or the
static status is "Vulnerable"; and a claim matched by neither verdict
list gets final status "Not Vulnerable" and priority "Low". -/
theorem c9_fallback_monotonicity :
    (∀ (v : Vuln) (sr : StaticAnalysisDoc) (dr : DynamicAnalysisDoc),
      fallbackDynamicStatus dr (v.id.getD "unknown") ∈
        ["Confirmed Vulnerable", "Possibly Vulnerable", "Not Reproducible"] →
      fallbackStaticStatus sr (v.id.getD "unknown") ∈
        ["Vulnerable", "Possible", "Not Vulnerable"] →
      (createFallbackTriageOne sr dr v).final_status = "Vulnerable" →
      (fallbackDynamicStatus dr (v.id.getD "unknown") = "Confirmed Vulnerable" ∨
        fallbackStaticStatus sr (v.id.getD "unknown") = "Vulnerable"))
    ∧ (∀ (v : Vuln) (sr : StaticAnalysisDoc) (dr : DynamicAnalysisDoc),
      (dr.vulnerability_tests.getD []).find?
        (fun t => t.vulnerability_id = some (v.id.getD "unknown")) = none →
      (sr.vulnerability_assessments.getD []).find?
        (fun a => a.vulnerability_id = some (v.id.getD "unknown")) = none →
      (createFallbackTriageOne sr dr v).final_status = "Not Vulnerable" ∧
      (createFallbackTriageOne sr dr v).priority = "Low") := by
  constructor
  · intro v sr dr hd hs hfin
    rw [createFallbackTriageOne_final_status_eq] at hfin
    by_cases hc : (fallbackDynamicStatus dr (v.id.getD "unknown") = "Vulnerable" ||
        fallbackStaticStatus sr (v.id.getD "unknown") = "Vulnerable") = true
    · rcases Bool.or_eq_true _ _ |>.mp hc with h | h
      · exfalso
        have hde := of_decide_eq_true h
        rw [hde] at hd
        exact absurd hd (by decide)
      · exact Or.inr (of_decide_eq_true h)
    · rw [if_neg hc] at hfin
      exact absurd hfin (by decide)
  · intro v sr dr h1 h2
    have hds : fallbackDynamicStatus dr (v.id.getD "unknown") = "Not Vulnerable" := by
      unfold fallbackDynamicStatus; rw [h1]
    have hss : fallbackStaticStatus sr (v.id.getD "unknown") = "Not Vulnerable" := by
      unfold fallbackStaticStatus; rw [h2]
    have hfin : (createFallbackTriageOne sr dr v).final_status = "Not Vulnerable" := by
      rw [createFallbackTriageOne_final_status_eq, hds, hss]; decide
    refine ⟨hfin, ?_⟩
    rw [createFallbackTriageOne_priority_eq, hfin]
    rfl

/-- C9 witness: the enumeration part applied to a claim whose static
verdict is "Vulnerable" and whose dynamic verdict is "Confirmed
Vulnerable", and the absence part applied to a claim missing from both
verdict lists. -/
theorem c9_monotonicity_witness :
    (fallbackDynamicStatus c9DynamicConfirmed "1" = "Confirmed Vulnerable" ∨
      fallbackStaticStatus c9StaticVulnerable "1" = "Vulnerable") ∧
    (createFallbackTriageOne c9AbsentStatic c9AbsentDynamic c9Claim).final_status =
      "Not Vulnerable" ∧
    (createFallbackTriageOne c9AbsentStatic c9AbsentDynamic c9Claim).priority = "Low" :=
  ⟨c9_fallback_monotonicity.1 c9Claim c9StaticVulnerable c9DynamicConfirmed
      (by decide) (by decide) (by decide),
    (c9_fallback_monotonicity.2 c9Claim c9AbsentStatic c9AbsentDynamic
      (by decide) (by decide)).1,
    (c9_fallback_monotonicity.2 c9Claim c9AbsentStatic c9AbsentDynamic
      (by decide) (by decide)).2⟩

/-- C10: the sum of all risk-matrix cells equals the number of entries
whose defaulted severity is exactly one of the four row keys and whose
defaulted status is exactly one of the two column keys; a lower-cased
severity string is counted in no cell, so the single-entry list with
severity "critical" sums to zero, strictly less than its length. -/
theorem c10_risk_matrix_partial_count :
    (∀ (l : List RiskEntry),
      sumRiskCells (generateRiskMatrix l) = l.countP riskCounted)
    ∧ sumRiskCells (generateRiskMatrix [c10LowercaseEntry]) <
        ([c10LowercaseEntry] : List RiskEntry).length := by
  constructor
  · intro l
    unfold generateRiskMatrix
    rw [foldl_riskMatrixStep_sum]
    simp [sumRiskCells]
  · decide

end MeliChallenge
